import Mathlib

/-!
Shallow embedding of the request dispatcher and its callers from
bitmex_websocket/symbol_data.py.

The dispatcher _curl_bitmex (lines 232-330) is modelled as a fuel-indexed
function over a list of transport answers: each attempt consumes the head of
the list, and the run returns the final outcome, the remaining transport and
the number of sleep calls performed. Dictionaries (the Python postdict payloads
and the order records) are association lists of scalar JSON values; a missing
key raises KeyError, as in Python. The duplicate-clOrdID detection condition of
lines 296-298 reads the message field of the error body; the model carries that
message directly on the HTTP answer, with none standing for an absent or falsy
error field (such an answer takes the unknown-error branch, as in the source).
-/

namespace BitmexWS

/-- HTTP verbs the client sends (the source passes GET, POST, PUT, DELETE). -/
inductive Verb where
  | GET
  | POST
  | PUT
  | DELETE
  deriving DecidableEq, Repr

/-- Scalar JSON values appearing in request and response dictionaries. -/
inductive Val where
  | str : String → Val
  | int : Int → Val
  deriving DecidableEq, Repr

/-- A JSON object, as the Python dicts used for payloads and orders. -/
abbrev Dict := List (String × Val)

/-- Parsed response bodies: an object or an array of objects. -/
inductive Body where
  | obj : Dict → Body
  | arr : List Dict → Body
  deriving DecidableEq, Repr

/-- One transport-level answer to a send: an HTTP response with status code,
the message of the error field of its body (none when absent or falsy) and a
parsed body, or a requests-level Timeout, or a ConnectionError. -/
inductive HResp where
  | http : Nat → Option String → Body → HResp
  | timeout : HResp
  | connError : HResp
  deriving DecidableEq, Repr

/-- Exceptions the embedded code can raise. -/
inductive Err where
  | httpError : Nat → Err
  | keyError : String → Err
  | typeError : Err
  | indexError : Err
  | reconcileMismatch : Dict → Dict → Err
  | authenticationError : Err
  | priceError : Err
  deriving DecidableEq, Repr

/-- Terminal outcome of a dispatcher run: a returned parsed body, a bare
return of None (the DELETE-404 branch, line 275), a raised exception, a call
of exit, or divergence (out of fuel, or the transport gave no answer). -/
inductive Outcome where
  | value : Body → Outcome
  | noneVal : Outcome
  | raised : Err → Outcome
  | exited : Nat → Outcome
  | diverge : Outcome
  deriving DecidableEq, Repr

/-- Result of a run: outcome, transport not yet consumed, sleeps performed. -/
structure RunResult where
  outcome : Outcome
  transport : List HResp
  sleeps : Nat
  deriving DecidableEq, Repr

/-- Python truthiness of an optional string attribute: None and the empty
string are falsy. -/
def pyTruthy : Option String → Bool
  | none => false
  | some s => !(s == "")

/-- Verb defaulting of lines 238-239: an explicitly given verb wins; otherwise
POST when a truthy (non-empty) postdict is attached, else GET. -/
def effVerb : Option Verb → Option Dict → Verb
  | some v, _ => v
  | none, some d => if d.isEmpty then Verb.GET else Verb.POST
  | none, none => Verb.GET

/-- Serialisation of a scalar value, as json.dumps renders it. -/
def dumpVal : Val → String
  | Val.str s => "\"" ++ s ++ "\""
  | Val.int n => toString n

/-- Query string of the reconciliation lookup of line 301: the filter object
mapping clOrdID to the value taken from the failed postdict. -/
def filterClOrdID (v : Val) : String :=
  "\x7b\"clOrdID\": " ++ dumpVal v ++ "\x7d"

/-- Comparison of the fetched order against the submitted postdict, lines
303-311, with Python evaluation order and KeyError on a missing key. Note the
source reads the postdict key quantity although order submissions store the
amount under the key orderQty. On full equality the fetched order is returned
(line 311); on an observed inequality the recover-failed exception carrying
both payloads is raised (lines 307-309). -/
def reconcile (d : Dict) (o : Dict) (t : List HResp) (sleeps : Nat) : RunResult :=
  match o.lookup "orderQty" with
  | none => ⟨Outcome.raised (Err.keyError "orderQty"), t, sleeps⟩
  | some oq =>
    match d.lookup "quantity" with
    | none => ⟨Outcome.raised (Err.keyError "quantity"), t, sleeps⟩
    | some pq =>
      if oq ≠ pq then ⟨Outcome.raised (Err.reconcileMismatch d o), t, sleeps⟩
      else
        match o.lookup "price" with
        | none => ⟨Outcome.raised (Err.keyError "price"), t, sleeps⟩
        | some op =>
          match d.lookup "price" with
          | none => ⟨Outcome.raised (Err.keyError "price"), t, sleeps⟩
          | some pp =>
            if op ≠ pp then ⟨Outcome.raised (Err.reconcileMismatch d o), t, sleeps⟩
            else
              match o.lookup "symbol" with
              | none => ⟨Outcome.raised (Err.keyError "symbol"), t, sleeps⟩
              | some osym =>
                match d.lookup "symbol" with
                | none => ⟨Outcome.raised (Err.keyError "symbol"), t, sleeps⟩
                | some psym =>
                  if osym ≠ psym then
                    ⟨Outcome.raised (Err.reconcileMismatch d o), t, sleeps⟩
                  else ⟨Outcome.value (Body.obj o), t, sleeps⟩

/-- The dispatcher _curl_bitmex, lines 232-330. Arguments follow the Python
signature: api, query, postdict, timeout, verb, rethrow_errors; fuel bounds the
otherwise unbounded retry recursion. Every recursive resend (timeout line 322,
connection error line 328, 429 line 286, 503 line 293) passes api, query,
postdict, timeout and verb positionally and leaves rethrow_errors to its
default False. A 401 calls exit unconditionally (line 268). A 404 on a DELETE
logs the orderID of the postdict and returns None (lines 272-275); any other
404 and any unknown status raise the HTTPError when rethrow_errors is set and
call exit otherwise (maybe_exit, lines 246-250). A 400 whose error message is
Duplicate clOrdID performs the reconciliation lookup on the same transport
(inner call of lines 300-302, with default timeout and rethrow) and indexes
element 0 of the returned array. Statuses below 400 return the parsed body. -/
def curl : Nat → List HResp → String → Option String → Option Dict → Nat →
    Option Verb → Bool → RunResult
  | 0, t, _, _, _, _, _, _ => ⟨Outcome.diverge, t, 0⟩
  | _ + 1, [], _, _, _, _, _, _ => ⟨Outcome.diverge, [], 0⟩
  | fuel + 1, r :: t, api, query, postdict, timeout, verb, rethrow =>
    let v := effVerb verb postdict
    match r with
    | HResp.timeout => curl fuel t api query postdict timeout (some v) false
    | HResp.connError =>
        let res := curl fuel t api query postdict timeout (some v) false
        ⟨res.outcome, res.transport, res.sleeps + 1⟩
    | HResp.http status errMsg body =>
      if status < 400 then ⟨Outcome.value body, t, 0⟩
      else if status = 401 then ⟨Outcome.exited 1, t, 0⟩
      else if status = 404 then
        (if v = Verb.DELETE then
          (match postdict with
          | none => ⟨Outcome.raised Err.typeError, t, 0⟩
          | some d =>
            match d.lookup "orderID" with
            | some _ => ⟨Outcome.noneVal, t, 0⟩
            | none => ⟨Outcome.raised (Err.keyError "orderID"), t, 0⟩)
        else if rethrow then ⟨Outcome.raised (Err.httpError 404), t, 0⟩
        else ⟨Outcome.exited 1, t, 0⟩)
      else if status = 429 then
        let res := curl fuel t api query postdict timeout (some v) false
        ⟨res.outcome, res.transport, res.sleeps + 1⟩
      else if status = 503 then
        let res := curl fuel t api query postdict timeout (some v) false
        ⟨res.outcome, res.transport, res.sleeps + 1⟩
      else if status = 400 then
        (if errMsg = some "Duplicate clOrdID" then
          (match postdict with
          | none => ⟨Outcome.raised Err.typeError, t, 0⟩
          | some d =>
            match d.lookup "clOrdID" with
            | none => ⟨Outcome.raised (Err.keyError "clOrdID"), t, 0⟩
            | some cl =>
              let inner :=
                curl fuel t "/order" (some (filterClOrdID cl)) none 3
                  (some Verb.GET) false
              match inner.outcome with
              | Outcome.value (Body.arr (o :: _)) =>
                  reconcile d o inner.transport inner.sleeps
              | Outcome.value (Body.arr []) =>
                  ⟨Outcome.raised Err.indexError, inner.transport, inner.sleeps⟩
              | Outcome.value (Body.obj _) =>
                  ⟨Outcome.raised Err.typeError, inner.transport, inner.sleeps⟩
              | Outcome.noneVal =>
                  ⟨Outcome.raised Err.typeError, inner.transport, inner.sleeps⟩
              | out => ⟨out, inner.transport, inner.sleeps⟩)
        else if rethrow then ⟨Outcome.raised (Err.httpError status), t, 0⟩
        else ⟨Outcome.exited 1, t, 0⟩)
      else
        if rethrow then ⟨Outcome.raised (Err.httpError status), t, 0⟩
        else ⟨Outcome.exited 1, t, 0⟩

/-- Attribute state of a SymbolData object as set by the constructor body,
lines 29-39: symbol, token (set to None unconditionally on line 31, the
otpToken argument is never stored), apiKey, apiSecret, and the order-ID
prefix (field pfx here, orderIDPrefix in the source). -/
structure Config where
  symbol : String
  token : Option String
  apiKey : Option String
  apiSecret : Option String
  pfx : String
  deriving DecidableEq, Repr

/-- Guard of the authentication_required decorator, lines 120-128: the wrapped
method runs only when self.apiKey is truthy; the token is not consulted. -/
def authOk (cfg : Config) : Bool := pyTruthy cfg.apiKey

/-- Postdict built by place_order, lines 170-175. -/
def place_order_postdict (symbol : String) (quantity : Int) (price : Int)
    (clOrdID : String) : Dict :=
  [("symbol", Val.str symbol), ("orderQty", Val.int quantity),
   ("price", Val.int price), ("clOrdID", Val.str clOrdID)]

/-- Python str.startswith on the character lists of the two strings. -/
def pyStartsWith (s pre : String) : Bool :=
  List.isPrefixOf pre.toList s.toList

/-- place_order, lines 162-176, wrapped by authentication_required: auth guard
first, then the negative-price check, then the dispatch of the postdict with
verb POST. The argument sfx stands for the random base64 uuid suffix of line
169; the clOrdID is the configured prefix followed by that suffix. -/
def place_order (fuel : Nat) (transport : List HResp) (cfg : Config)
    (quantity : Int) (price : Int) (sfx : String) : RunResult :=
  if authOk cfg = false then
    ⟨Outcome.raised Err.authenticationError, transport, 0⟩
  else if price < 0 then ⟨Outcome.raised Err.priceError, transport, 0⟩
  else
    curl fuel transport "order" none
      (some (place_order_postdict cfg.symbol quantity price (cfg.pfx ++ sfx)))
      3 (some Verb.POST) false

/-- Postdict built by cancel, lines 216-218. -/
def cancel_postdict (orderID : Val) : Dict := [("orderID", orderID)]

/-- One record of the order table of the data store, restricted to the two
fields open_orders reads. -/
structure StoreOrder where
  clOrdID : Val
  leavesQty : Int
  deriving DecidableEq, Repr

/-- Python str on a scalar value. -/
def pyStr : Val → String
  | Val.str s => s
  | Val.int n => toString n

/-- open_orders, lines 192-196: keep the orders of the data store whose
clOrdID, as a string, starts with the configured order-ID prefix and whose
leavesQty is strictly positive. -/
def open_orders (pfx : String) (orders : List StoreOrder) : List StoreOrder :=
  orders.filter (fun o => pyStartsWith (pyStr o.clOrdID) pfx && decide (0 < o.leavesQty))

/-- Parameter names, besides self, accepted by connect_websocket, lines 55-58:
there are none. -/
def connect_websocket_params : List String := []

/-- Ways the constructor fails before returning an instance. -/
inductive InitErr where
  | valueError
  | typeErrorKwarg
  deriving DecidableEq, Repr

/-- SymbolData constructor, lines 20-50: raise ValueError when the order-ID
prefix is longer than 13 characters (lines 35-37); otherwise set the
attributes and call connect_websocket with a symbol keyword argument (line
50). Since connect_websocket accepts no parameter of that name, Python raises
TypeError at that call, before the constructor returns. -/
def SymbolData_init (symbol : String) (_otpToken : Option String)
    (apiKey : Option String) (apiSecret : Option String) (orderIDPfx : String)
    (_shouldAuth : Bool) : Except InitErr Config :=
  if orderIDPfx.length > 13 then Except.error InitErr.valueError
  else if "symbol" ∈ connect_websocket_params then
    Except.ok ⟨symbol, none, apiKey, apiSecret, orderIDPfx⟩
  else Except.error InitErr.typeErrorKwarg

/-- Transient transport answers: the four resend branches of the dispatcher
(429, 503, Timeout, ConnectionError). -/
def isTransient : HResp → Bool
  | HResp.timeout => true
  | HResp.connError => true
  | HResp.http s _ _ => s == 429 || s == 503

/-- Number of sleep calls performed before the resend for a transient answer:
the Timeout branch resends at once, the others sleep one time unit. -/
def sleepsOf : HResp → Nat
  | HResp.timeout => 0
  | HResp.connError => 1
  | HResp.http _ _ _ => 1

/-- Add to the sleep count of a run the sleeps performed before it started. -/
def bumpBy (n : Nat) (r : RunResult) : RunResult :=
  ⟨r.outcome, r.transport, r.sleeps + n⟩

theorem curl_transient (fuel : Nat) (t : List HResp) (api : String)
    (query : Option String) (postdict : Option Dict) (timeout : Nat)
    (verb : Option Verb) (rethrow : Bool) (r : HResp)
    (hr : isTransient r = true) :
    curl (fuel + 1) (r :: t) api query postdict timeout verb rethrow
      = bumpBy (sleepsOf r)
          (curl fuel t api query postdict timeout (some (effVerb verb postdict)) false) := by
  cases r with
  | timeout => rfl
  | connError => rfl
  | http s m b =>
    have hs : s = 429 ∨ s = 503 := by
      simpa [isTransient, Bool.or_eq_true, beq_iff_eq] using hr
    rcases hs with h | h <;> subst h <;> rfl

theorem curl_unknown_step (fuel : Nat) (t : List HResp) (api : String)
    (query : Option String) (postdict : Option Dict) (timeout : Nat)
    (verb : Option Verb) (rethrow : Bool) (st : Nat) (m : Option String)
    (b : Body) (h1 : 400 ≤ st) (h2 : st ≠ 401) (h3 : st ≠ 404) (h4 : st ≠ 429)
    (h5 : st ≠ 503) (h6 : ¬(st = 400 ∧ m = some "Duplicate clOrdID")) :
    curl (fuel + 1) (HResp.http st m b :: t) api query postdict timeout verb rethrow
      = if rethrow then ⟨Outcome.raised (Err.httpError st), t, 0⟩
        else ⟨Outcome.exited 1, t, 0⟩ := by
  have hlt : ¬ st < 400 := Nat.not_lt.mpr h1
  by_cases h400 : st = 400
  · subst h400
    have hm : ¬ m = some "Duplicate clOrdID" := fun hm => h6 ⟨rfl, hm⟩
    simp [curl, hlt, hm]
  · simp [curl, hlt, h2, h3, h4, h5, h400]

/-- C1: on a DuplicateSubmission answer to a place_order submission whose
fetched order agrees with the submission in quantity, price and symbol, the
code does not return the fetched order: reconciliation reads the postdict key
quantity, which place_order never sets (it stores the amount under orderQty),
so the run raises KeyError quantity instead of succeeding. -/
theorem C1_dup_match_raises_keyerror :
    curl 2
      [HResp.http 400 (some "Duplicate clOrdID") (Body.obj []),
       HResp.http 200 none (Body.arr
         [[("orderQty", Val.int 5), ("price", Val.int 100),
           ("symbol", Val.str "XBTH17"), ("clOrdID", Val.str "orderAAA"),
           ("leavesQty", Val.int 5)]])]
      "order" none (some (place_order_postdict "XBTH17" 5 100 "orderAAA")) 3
      (some Verb.POST) false
      = ⟨Outcome.raised (Err.keyError "quantity"), [], 0⟩ := rfl

/-- C2: on a DuplicateSubmission answer to a place_order submission whose
fetched order differs from the submission (here in price), the run does fail,
but not with the mismatch error carrying both payloads: the lookup of the
postdict key quantity raises KeyError first, so the data-integrity branch of
lines 303-309 is unreachable for orders placed by place_order. -/
theorem C2_dup_mismatch_raises_keyerror :
    curl 2
      [HResp.http 400 (some "Duplicate clOrdID") (Body.obj []),
       HResp.http 200 none (Body.arr
         [[("orderQty", Val.int 5), ("price", Val.int 999),
           ("symbol", Val.str "XBTH17"), ("clOrdID", Val.str "orderAAA"),
           ("leavesQty", Val.int 5)]])]
      "order" none (some (place_order_postdict "XBTH17" 5 100 "orderAAA")) 3
      (some Verb.POST) false
      = ⟨Outcome.raised (Err.keyError "quantity"), [], 0⟩ := rfl

/-- C3: after any transient failure (429, 503, Timeout, ConnectionError) the
dispatcher resends with the identical endpoint, query, body payload, timeout
and effective verb, and with no other change of the request: the whole run
equals the run of the very same arguments, in particular the very same
postdict and hence the identical clOrdID, on the remaining transport. -/
theorem C3_retry_same_request (fuel : Nat) (t : List HResp) (api : String)
    (query : Option String) (postdict : Option Dict) (timeout : Nat)
    (verb : Option Verb) (rethrow : Bool) (r : HResp)
    (hr : isTransient r = true) :
    curl (fuel + 1) (r :: t) api query postdict timeout verb rethrow
      = bumpBy (sleepsOf r)
          (curl fuel t api query postdict timeout (some (effVerb verb postdict)) false) :=
  curl_transient fuel t api query postdict timeout verb rethrow r hr

/-- C3 witness: a Timeout answer to a concrete order submission resends the
identical request on the remaining transport. -/
theorem C3_retry_same_request_witness :
    curl 1 [HResp.timeout] "order" none
        (some (place_order_postdict "XBTH17" 1 100 "orderAAA")) 3
        (some Verb.POST) false
      = bumpBy (sleepsOf HResp.timeout)
          (curl 0 [] "order" none
            (some (place_order_postdict "XBTH17" 1 100 "orderAAA")) 3
            (some (effVerb (some Verb.POST)
              (some (place_order_postdict "XBTH17" 1 100 "orderAAA")))) false) :=
  C3_retry_same_request 0 [] "order" none
    (some (place_order_postdict "XBTH17" 1 100 "orderAAA")) 3
    (some Verb.POST) false HResp.timeout (by decide)

/-- C4: a 401 answer makes the dispatcher call exit after logging, for both
values of the rethrow flag: the result is exit code 1, the rest of the
transport is untouched (no resend) and no failure is returned to the caller. -/
theorem C4_auth_failure_always_exits (fuel : Nat) (t : List HResp)
    (api : String) (query : Option String) (postdict : Option Dict)
    (timeout : Nat) (verb : Option Verb) (rethrow : Bool) (m : Option String)
    (b : Body) :
    curl (fuel + 1) (HResp.http 401 m b :: t) api query postdict timeout verb rethrow
      = ⟨Outcome.exited 1, t, 0⟩ := rfl

/-- C5: a 404 answer to a cancellation, a DELETE carrying the postdict built
by cancel, makes the dispatcher return None, the empty result, for both values
of the rethrow flag: no exception, no exit, no resend. -/
theorem C5_cancel_404_returns_empty (fuel : Nat) (t : List HResp)
    (m : Option String) (b : Body) (oid : Val) (rethrow : Bool) :
    curl (fuel + 1) (HResp.http 404 m b :: t) "order" none
        (some (cancel_postdict oid)) 3 (some Verb.DELETE) rethrow
      = ⟨Outcome.noneVal, t, 0⟩ := rfl

/-- C7: each 429 or 503 answer causes exactly one sleep followed by exactly
one resend of the identical request, and a transport answering 429 twice and
then 200 yields two sleeps and the parsed 200 payload. -/
theorem C7_backoff_waits :
    (∀ (fuel : Nat) (t : List HResp) (api : String) (query : Option String)
        (postdict : Option Dict) (timeout : Nat) (verb : Option Verb)
        (rethrow : Bool) (m : Option String) (b : Body),
      curl (fuel + 1) (HResp.http 429 m b :: t) api query postdict timeout verb rethrow
        = bumpBy 1
            (curl fuel t api query postdict timeout (some (effVerb verb postdict)) false))
    ∧ (∀ (fuel : Nat) (t : List HResp) (api : String) (query : Option String)
        (postdict : Option Dict) (timeout : Nat) (verb : Option Verb)
        (rethrow : Bool) (m : Option String) (b : Body),
      curl (fuel + 1) (HResp.http 503 m b :: t) api query postdict timeout verb rethrow
        = bumpBy 1
            (curl fuel t api query postdict timeout (some (effVerb verb postdict)) false))
    ∧ curl 3
        [HResp.http 429 none (Body.obj []), HResp.http 429 none (Body.obj []),
         HResp.http 200 none (Body.obj [("ok", Val.int 1)])]
        "order" none (some (place_order_postdict "XBTH17" 2 100 "orderAAA")) 3
        (some Verb.POST) false
      = ⟨Outcome.value (Body.obj [("ok", Val.int 1)]), [], 2⟩ :=
  ⟨fun _ _ _ _ _ _ _ _ _ _ => rfl, fun _ _ _ _ _ _ _ _ _ _ => rfl, rfl⟩

/-- C8: open_orders returns exactly the stored orders whose clOrdID starts
with the configured prefix and whose leavesQty is strictly positive, and on
the three-order example of the spec with prefix order only order-abc remains. -/
theorem C8_open_orders_filter :
    (∀ (pfx : String) (orders : List StoreOrder) (o : StoreOrder),
      o ∈ open_orders pfx orders
        ↔ o ∈ orders ∧ pyStartsWith (pyStr o.clOrdID) pfx = true ∧ 0 < o.leavesQty)
    ∧ open_orders "order"
        [⟨Val.str "order-abc", 5⟩, ⟨Val.str "order-def", 0⟩,
         ⟨Val.str "other-xyz", 5⟩]
      = [⟨Val.str "order-abc", 5⟩] := by
  constructor
  · intro pfx orders o
    simp [open_orders, List.mem_filter, and_assoc]
  · rfl

/-- C9: every transient-failure resend leaves the rethrow flag at its default
False, so a fatal classification on the second attempt, an unknown server
error or a 404 outside DELETE, calls exit even though the original caller
passed rethrow True. -/
theorem C9_retry_reverts_rethrow (fuel : Nat) (t : List HResp) (api : String)
    (query : Option String) (postdict : Option Dict) (timeout : Nat)
    (verb : Option Verb) (r : HResp) (m : Option String) (b : Body) (st : Nat)
    (hr : isTransient r = true) :
    (400 ≤ st → st ≠ 401 → st ≠ 404 → st ≠ 429 → st ≠ 503 →
      ¬(st = 400 ∧ m = some "Duplicate clOrdID") →
      curl (fuel + 2) (r :: HResp.http st m b :: t) api query postdict timeout verb true
        = ⟨Outcome.exited 1, t, sleepsOf r⟩)
    ∧ (effVerb verb postdict ≠ Verb.DELETE →
      curl (fuel + 2) (r :: HResp.http 404 m b :: t) api query postdict timeout verb true
        = ⟨Outcome.exited 1, t, sleepsOf r⟩) := by
  constructor
  · intro h1 h2 h3 h4 h5 h6
    rw [curl_transient (fuel + 1) _ api query postdict timeout verb true r hr,
        curl_unknown_step fuel t api query postdict timeout
          (some (effVerb verb postdict)) false st m b h1 h2 h3 h4 h5 h6]
    simp [bumpBy]
  · intro hv
    rw [curl_transient (fuel + 1) _ api query postdict timeout verb true r hr]
    have hv2 : effVerb (some (effVerb verb postdict)) postdict
        = effVerb verb postdict := rfl
    have h404 : curl (fuel + 1) (HResp.http 404 m b :: t) api query postdict
        timeout (some (effVerb verb postdict)) false
        = ⟨Outcome.exited 1, t, 0⟩ := by
      simp [curl, hv2, hv]
    rw [h404]
    simp [bumpBy]

/-- C9 witness: a Timeout followed by a 500 on a request issued with rethrow
True ends in exit code 1 rather than a raised error. -/
theorem C9_retry_reverts_rethrow_witness :
    curl 2 [HResp.timeout, HResp.http 500 none (Body.obj [])] "order" none
        (some (place_order_postdict "XBTH17" 1 100 "orderAAA")) 3
        (some Verb.POST) true
      = ⟨Outcome.exited 1, [], sleepsOf HResp.timeout⟩ :=
  (C9_retry_reverts_rethrow 0 [] "order" none
      (some (place_order_postdict "XBTH17" 1 100 "orderAAA")) 3
      (some Verb.POST) HResp.timeout none (Body.obj []) 500 (by decide)).1
    (by decide) (by decide) (by decide) (by decide) (by decide) (by decide)

/-- C6 counterexample: a session state holding a token but no API key. The
claim says such a client passes the pre-network credential check; the code
raises AuthenticationError there, because the guard reads only apiKey. -/
theorem C6_token_only_fails :
    authOk ⟨"XBTH17", some "tok", none, none, "order"⟩ = false
    ∧ place_order 1 [] ⟨"XBTH17", some "tok", none, none, "order"⟩ 1 100 "AAA"
      = ⟨Outcome.raised Err.authenticationError, [], 0⟩ := by
  exact ⟨rfl, rfl⟩

/-- C6 amended: an operation requiring authentication fails immediately with
AuthenticationError, before any network call and with the transport untouched,
exactly when the API key is not configured (None or empty); the session token
is not consulted by the check, and when the key is truthy the call proceeds
straight to the dispatch. -/
theorem C6_auth_check (fuel : Nat) (t : List HResp) (cfg : Config)
    (q p : Int) (sfx : String) :
    (pyTruthy cfg.apiKey = false →
      place_order fuel t cfg q p sfx
        = ⟨Outcome.raised Err.authenticationError, t, 0⟩)
    ∧ (pyTruthy cfg.apiKey = true → 0 ≤ p →
      place_order fuel t cfg q p sfx
        = curl fuel t "order" none
            (some (place_order_postdict cfg.symbol q p (cfg.pfx ++ sfx))) 3
            (some Verb.POST) false)
    ∧ authOk cfg = pyTruthy cfg.apiKey := by
  refine ⟨?_, ?_, rfl⟩
  · intro h
    simp [place_order, authOk, h]
  · intro h hp
    simp [place_order, authOk, h, Int.not_lt.mpr hp]

/-- C6 witness: with no API key the guard raises at once and consumes nothing;
with an API key the same call reaches the dispatcher. -/
theorem C6_auth_check_witness :
    (place_order 1 [] ⟨"XBTH17", none, none, none, "order"⟩ 1 100 "AAA"
      = ⟨Outcome.raised Err.authenticationError, [], 0⟩)
    ∧ (place_order 1 [] ⟨"XBTH17", none, some "k", some "s", "order"⟩ 1 100 "AAA"
      = curl 1 [] "order" none
          (some (place_order_postdict "XBTH17" 1 100 ("order" ++ "AAA"))) 3
          (some Verb.POST) false) :=
  ⟨(C6_auth_check 1 [] ⟨"XBTH17", none, none, none, "order"⟩ 1 100 "AAA").1
      (by decide),
   (C6_auth_check 1 [] ⟨"XBTH17", none, some "k", some "s", "order"⟩ 1 100 "AAA").2.1
      (by decide) (by decide)⟩

/-- C10: for every argument combination whose order-ID prefix is at most 13
characters, the constructor fails with the TypeError of the connect_websocket
call of line 50, which passes a symbol keyword argument the method does not
accept; and for every argument combination whatsoever the constructor never
returns an instance. -/
theorem C10_init_always_raises (symbol : String) (otp : Option String)
    (k s : Option String) (pfx : String) (sa : Bool) :
    (pfx.length ≤ 13 →
      SymbolData_init symbol otp k s pfx sa = Except.error InitErr.typeErrorKwarg)
    ∧ ∀ cfg : Config, SymbolData_init symbol otp k s pfx sa ≠ Except.ok cfg := by
  constructor
  · intro h
    have hlen : ¬ pfx.length > 13 := Nat.not_lt.mpr h
    simp [SymbolData_init, hlen, connect_websocket_params]
  · intro cfg
    by_cases h : pfx.length > 13 <;>
      simp [SymbolData_init, h, connect_websocket_params]

/-- C10 witness: the default-style arguments with the prefix order fail with
the TypeError of the connect_websocket call. -/
theorem C10_init_always_raises_witness :
    SymbolData_init "XBTH17" none none none "order" false
      = Except.error InitErr.typeErrorKwarg :=
  (C10_init_always_raises "XBTH17" none none none "order" false).1 (by decide)

end BitmexWS
